import Mathlib

/-!
Verification development for the panel Telegram bot
(`src/panel/app/telegram_bot.py`).

The Python class `TelegramBot` is shallowly embedded here.  Stateful and
effectful code is modelled with explicit state records plus event traces:
every externally visible action of a method (repository read, producer
call, message reply, document send, file removal, sleep, task spawn or
cancellation, transport binding and teardown, error log) becomes one
`Event` in the returned trace.  Failure of an external operation (database
fetch, filesystem copy, message delivery, transport teardown) is decided
by an explicit environment record passed to each modelled method, mirroring
the places where the Python code can raise.  Message text rendering is
carried along as plain string building.
-/

namespace Smite

/-- The "telegram" settings row as consumed by `load_settings`
(fields read out of `setting.value`). -/
structure TgSettings where
  enabled : Bool
  bot_token : Option String
  admin_ids : List String
  backup_enabled : Bool
  backup_interval : Nat
  backup_interval_unit : String
deriving Repr, DecidableEq

/-- Field defaults used by `load_settings` when the settings row is absent
(and the per-key defaults of the `.get` calls, which coincide with them). -/
def default_settings : TgSettings :=
  { enabled := false
    bot_token := none
    admin_ids := []
    backup_enabled := false
    backup_interval := 60
    backup_interval_unit := "minutes" }

/-- `load_settings`: read the "telegram" row; fall back to the defaults
when the row or its value is missing. -/
def load_settings (row : Option TgSettings) : TgSettings :=
  row.getD default_settings

/-- `is_admin`: `str(user_id) in self.admin_ids`. -/
def is_admin (admin_ids : List String) (user_id : Int) : Bool :=
  admin_ids.contains (toString user_id)

/-- Python truthiness of the token check `not self.bot_token`:
`None` and the empty string are falsy. -/
def tokenTruthy : Option String → Bool
  | none => false
  | some s => s ≠ ""

/-- Sleep-duration computation of `_backup_loop` (lines 151-154):
hours multiply by 3600, any other unit string multiplies by 60. -/
def sleep_seconds (backup_interval : Nat) (backup_interval_unit : String) : Nat :=
  if backup_interval_unit = "hours" then backup_interval * 3600
  else backup_interval * 60

/-- Externally visible actions of the modelled methods. -/
inductive Event where
  | loadSettings
  | sleep (seconds : Nat)
  | repoRead (table : String)
  | producerCall
  | sendDocument (chat_id : Int)
  | removeFile (path : String)
  | replyText (text : String)
  | replyDocument
  | answerCallback
  | editMessage (text : String)
  | logError (tag : String)
  | cancelTask
  | awaitTask
  | spawnTask
  | bindTransport
  | initTransport
  | appStart
  | startPolling
  | updaterStop
  | appStop
  | appShutdown
deriving Repr, DecidableEq

/-! ## Backup producer (`create_backup`, lines 343-418)

The filesystem work of `create_backup` is a straight-line sequence of
operations, each of which may raise; the `except` branch logs and returns
`None` without touching the staging directory.  We represent the sequence
of operations actually executed (conditional copies depend on which source
paths exist) as a list of `CbOp`, and run it against an oracle `failAt`
that decides which operation index raises.  Only three operations change
the tracked filesystem facts: creating the staging directory, opening the
zip file for writing, and removing the staging directory. -/

/-- One filesystem operation performed by `create_backup`. -/
inductive CbOp where
  | mkStaging
  | copyFile
  | mkSubdir
  | openZip
  | writeZip
  | rmStaging
deriving Repr, DecidableEq

/-- Which backup source paths exist, and the suffixes of the regular files
in `./data` (only `.json`/`.yaml`/`.toml` ones are copied). -/
structure BackupFS where
  dbExists : Bool
  envExists : Bool
  composeExists : Bool
  certsDirExists : Bool
  nodeCertExists : Bool
  nodeKeyExists : Bool
  serverCertExists : Bool
  serverKeyExists : Bool
  dataDirExists : Bool
  dataFileSuffixes : List String
deriving Repr, DecidableEq

/-- Tracked filesystem facts: does the staging directory
`/tmp/smite_backup` exist, does the archive file exist. -/
structure FsState where
  stagingExists : Bool
  artifactExists : Bool
deriving Repr, DecidableEq

/-- Operations performed only when the corresponding source exists. -/
def optOps (b : Bool) (l : List CbOp) : List CbOp :=
  if b then l else []

/-- The copy operations between creating the staging directory and
zipping, in source order (lines 352-401). -/
def stageCopyOps (fs : BackupFS) : List CbOp :=
  optOps fs.dbExists [CbOp.copyFile] ++
  optOps fs.envExists [CbOp.copyFile] ++
  optOps fs.composeExists [CbOp.copyFile] ++
  optOps fs.certsDirExists [CbOp.copyFile] ++
  optOps fs.nodeCertExists [CbOp.mkSubdir, CbOp.copyFile] ++
  optOps fs.nodeKeyExists [CbOp.mkSubdir, CbOp.copyFile] ++
  optOps fs.serverCertExists [CbOp.mkSubdir, CbOp.copyFile] ++
  optOps fs.serverKeyExists [CbOp.mkSubdir, CbOp.copyFile] ++
  optOps fs.dataDirExists
    (CbOp.mkSubdir ::
      ((fs.dataFileSuffixes.filter
        (fun s => s = ".json" ∨ s = ".yaml" ∨ s = ".toml")).map (fun _ => CbOp.copyFile)))

/-- Full operation sequence of one `create_backup` run: make the staging
directory, stage the sources, open and write the zip, remove staging. -/
def backupOps (fs : BackupFS) : List CbOp :=
  CbOp.mkStaging :: (stageCopyOps fs ++ [CbOp.openZip, CbOp.writeZip, CbOp.rmStaging])

/-- Effect of a successfully completed operation on the tracked facts. -/
def applyOp (st : FsState) : CbOp → FsState
  | CbOp.mkStaging => { st with stagingExists := true }
  | CbOp.openZip => { st with artifactExists := true }
  | CbOp.rmStaging => { st with stagingExists := false }
  | _ => st

/-- Run the operations; operation number `i` raises when `failAt i` is
true, aborting with the filesystem state reached at that point. -/
def runOps : List CbOp → (Nat → Bool) → Nat → FsState → Except FsState FsState
  | [], _, _, st => Except.ok st
  | op :: rest, failAt, i, st =>
    if failAt i then Except.error st
    else runOps rest failAt (i + 1) (applyOp st op)

/-- `create_backup`: run the staging and compression sequence; on success
return the archive path (timestamped in the source; the name is abstracted
here), on any raised operation log and return `none` — the `except`
branch performs no cleanup. -/
def create_backup (fs : BackupFS) (failAt : Nat → Bool) (st : FsState) :
    Option String × FsState :=
  match runOps (backupOps fs) failAt 0 st with
  | Except.ok st1 => (some "/tmp/smite_backup_ts.zip", st1)
  | Except.error st1 => (none, st1)

/-- A filesystem with no backup sources present at all. -/
def fs0 : BackupFS :=
  { dbExists := false, envExists := false, composeExists := false,
    certsDirExists := false, nodeCertExists := false, nodeKeyExists := false,
    serverCertExists := false, serverKeyExists := false,
    dataDirExists := false, dataFileSuffixes := [] }

/-! ## Backup scheduler loop (`_backup_loop`, lines 141-186)

One loop iteration is modelled by `cycle`, driven by a `CycleEnv` that
decides the outcome of every external interaction of that iteration:
whether the settings re-fetch raises, what it returns, whether and where a
cancellation signal arrives, what the producer returns, and which
per-recipient deliveries fail.  The re-check of `self.backup_enabled`
after the big sleep (line 158) observes a value that a concurrent
`load_settings` call may have changed during the sleep, so it is a
separate environment field. -/

/-- Points of a loop iteration at which a cancellation signal can arrive
(each is an await in the source). -/
inductive CancelPoint where
  | load
  | fallback
  | interval
  | create
  | dispatch
deriving Repr, DecidableEq

/-- Environment of one scheduler-loop iteration. -/
structure CycleEnv where
  cancelPoint : Option CancelPoint
  loadRaises : Bool
  row : Option TgSettings
  enabledAfterSleep : Bool
  createResult : Option String
  appBot : Bool
  sendFails : String → Bool
  removeRaises : Bool

/-- Digit-string to number conversion: fails on an empty or non-digit
string, as Python `int()` does. -/
def parseNat (cs : List Char) : Option Nat :=
  match cs with
  | [] => none
  | _ =>
    if cs.all (fun c => c.isDigit) then
      some (cs.foldl (fun n c => n * 10 + (c.toNat - 48)) 0)
    else none

/-- `int(admin_id_str)`: parse an optionally negated decimal string,
failing (raising `ValueError`) on anything else. -/
def parseAdminId (s : String) : Option Int :=
  match s.data with
  | '-' :: rest => (parseNat rest).map (fun n => -(n : Int))
  | cs => (parseNat cs).map (fun n => (n : Int))

/-- Per-recipient dispatch plus unconditional artifact removal
(lines 164-178): each admin id is parsed and the document sent inside a
per-recipient `try`; afterwards the archive is removed (the removal
sits inside the per-cycle `try`, so a raise there is logged). -/
def dispatchBackup (admins : List String) (sendFails : String → Bool)
    (path : String) (removeRaises : Bool) : List Event :=
  (admins.flatMap fun a =>
    match parseAdminId a with
    | none => [Event.logError "send"]
    | some i => if sendFails a then [Event.logError "send"] else [Event.sendDocument i]) ++
  (if removeRaises then [Event.logError "backup"] else [Event.removeFile path])

/-- How one loop iteration ended. -/
inductive CycleStep where
  | continues (st : TgSettings)
  | cancelled
  | errored
deriving Repr, DecidableEq

/-- Whether the iteration reached the top of the loop again. -/
def CycleStep.isContinues : CycleStep → Bool
  | CycleStep.continues _ => true
  | _ => false

/-- One iteration of the `while True` body of `_backup_loop`.  `st` holds
the `self` settings fields at entry.  A `CancelledError` is re-raised by
the loop (line 182-184); any other exception escaping the per-cycle body
— only the settings re-fetch can raise outside the inner `try` — is
caught by the outer handler (line 185), logged, and ends the loop. -/
def cycle (env : CycleEnv) (_st : TgSettings) : CycleStep × List Event :=
  if env.cancelPoint = some CancelPoint.load then (CycleStep.cancelled, [])
  else if env.loadRaises then (CycleStep.errored, [Event.logError "loop"])
  else
    let st1 := load_settings env.row
    if ¬ st1.backup_enabled ∨ st1.admin_ids.isEmpty then
      if env.cancelPoint = some CancelPoint.fallback then
        (CycleStep.cancelled, [Event.loadSettings])
      else
        (CycleStep.continues st1, [Event.loadSettings, Event.sleep 60])
    else
      let secs := sleep_seconds st1.backup_interval st1.backup_interval_unit
      if env.cancelPoint = some CancelPoint.interval then
        (CycleStep.cancelled, [Event.loadSettings])
      else if ¬ env.enabledAfterSleep then
        (CycleStep.continues st1, [Event.loadSettings, Event.sleep secs])
      else if env.cancelPoint = some CancelPoint.create then
        (CycleStep.cancelled, [Event.loadSettings, Event.sleep secs, Event.producerCall])
      else
        match env.createResult with
        | none =>
          (CycleStep.continues st1, [Event.loadSettings, Event.sleep secs, Event.producerCall])
        | some path =>
          if ¬ env.appBot then
            (CycleStep.continues st1, [Event.loadSettings, Event.sleep secs, Event.producerCall])
          else if env.cancelPoint = some CancelPoint.dispatch then
            (CycleStep.cancelled, [Event.loadSettings, Event.sleep secs, Event.producerCall])
          else
            (CycleStep.continues st1,
             [Event.loadSettings, Event.sleep secs, Event.producerCall] ++
               dispatchBackup st1.admin_ids env.sendFails path env.removeRaises)

/-- How a bounded run of the loop ended. -/
inductive LoopResult where
  | outOfFuel (st : TgSettings)
  | cancelled
  | errored
deriving Repr, DecidableEq

/-- Whether the loop was still running when the fuel ran out. -/
def LoopResult.stillLooping : LoopResult → Bool
  | LoopResult.outOfFuel _ => true
  | _ => false

/-- Run `fuel` iterations of `_backup_loop`, the environment of iteration
`i` given by `envs i`; stop early when an iteration is cancelled or ends
the loop through the outer exception handler. -/
def backup_loop (envs : Nat → CycleEnv) (fuel : Nat) (st : TgSettings) :
    LoopResult × List Event :=
  match fuel with
  | 0 => (LoopResult.outOfFuel st, [])
  | Nat.succ n =>
    match cycle (envs 0) st with
    | (CycleStep.continues st1, tr) =>
      let r := backup_loop (fun i => envs (i + 1)) n st1
      (r.1, tr ++ r.2)
    | (CycleStep.cancelled, tr) => (LoopResult.cancelled, tr)
    | (CycleStep.errored, tr) => (LoopResult.errored, tr)

/-- Iteration environment in which the settings re-fetch raises and no
cancellation signal arrives. -/
def loadFailEnv : CycleEnv :=
  { cancelPoint := none
    loadRaises := true
    row := none
    enabledAfterSleep := false
    createResult := none
    appBot := true
    sendFails := fun _ => false
    removeRaises := false }

/-- A benign iteration environment: fetch succeeds with the given row, no
cancellation, producer succeeds, all sends succeed. -/
def okEnv (row : Option TgSettings) : CycleEnv :=
  { cancelPoint := none
    loadRaises := false
    row := row
    enabledAfterSleep := true
    createResult := some "/tmp/smite_backup_ts.zip"
    appBot := true
    sendFails := fun _ => false
    removeRaises := false }

/-! ## Command and callback handlers (lines 188-341, 420-610)

Each handler becomes a function from its inputs (the admin list, the
requesting user, the repository contents it would read, the producer and
delivery outcomes) to the trace of events it performs.  The admin check
sits first in every command handler; the callback entry point answers the
callback query first and then checks. -/

/-- Node metadata mapping (`node_metadata`), possibly absent. -/
structure NodeMeta where
  role : Option String
  ip_address : Option String
deriving Repr, DecidableEq

/-- A `Node` row as read by the handlers. -/
structure NodeRec where
  id : String
  name : String
  status : String
  node_metadata : Option NodeMeta
deriving Repr, DecidableEq

/-- A `Tunnel` row as read by the handlers. -/
structure TunnelRec where
  id : String
  name : String
  status : String
  core : String
deriving Repr, DecidableEq

/-- The denial reply sent to non-admin users. -/
def denialText : String := "❌ Access denied. You are not an admin."

/-- Status glyph used by the list renderers. -/
def statusIcon (status : String) : String :=
  if status = "active" then "🟢" else "🔴"

/-- `node_metadata.get("role", "unknown") if node_metadata else "unknown"`. -/
def nodeRole (n : NodeRec) : String :=
  (n.node_metadata.bind (fun m => m.role)).getD "unknown"

/-- `node_metadata.get("ip_address", "N/A") if node_metadata else "N/A"`. -/
def nodeIp (n : NodeRec) : String :=
  (n.node_metadata.bind (fun m => m.ip_address)).getD "N/A"

/-- One line of the nodes listing. -/
def renderNodeLine (n : NodeRec) : String :=
  statusIcon n.status ++ " " ++ n.name ++ " (" ++ nodeRole n ++ ")\n" ++
  "   ID: " ++ n.id.take 8 ++ "...\n\n"

/-- Body of the nodes listing. -/
def renderNodes (nodes : List NodeRec) : String :=
  "🖥️ Nodes:\n\n" ++ String.join (nodes.map renderNodeLine)

/-- Body of the tunnels listing (first ten rows, with an overflow note). -/
def renderTunnels (tunnels : List TunnelRec) : String :=
  "🔗 Tunnels (" ++ toString tunnels.length ++ "):\n\n" ++
  String.join ((tunnels.take 10).map fun t =>
    statusIcon t.status ++ " " ++ t.name ++ " (" ++ t.core ++ ")\n") ++
  (if tunnels.length > 10 then
    "\n... and " ++ toString (tunnels.length - 10) ++ " more"
  else "")

/-- Body of the status summary. -/
def renderStatus (nodes : List NodeRec) (tunnels : List TunnelRec) : String :=
  "📊 Panel Status:\n\n🖥️ Nodes: " ++
  toString (nodes.filter (fun n => n.status = "active")).length ++ "/" ++
  toString nodes.length ++ " active\n🔗 Tunnels: " ++
  toString (tunnels.filter (fun t => t.status = "active")).length ++ "/" ++
  toString tunnels.length ++ " active\n"

/-- Node detail message of `show_node_info`. -/
def renderNodeInfo (n : NodeRec) : String :=
  "🖥️ Node: " ++ n.name ++ "\n\n📋 ID: " ++ n.id ++ "\n🌐 Role: " ++
  nodeRole n ++ "\n📍 IP: " ++ nodeIp n ++ "\n📊 Status: " ++ n.status ++ "\n"

/-- Tunnel detail message of `show_tunnel_info`. -/
def renderTunnelInfo (t : TunnelRec) : String :=
  "🔗 Tunnel: " ++ t.name ++ "\n\n📋 ID: " ++ t.id ++ "\n🔧 Core: " ++
  t.core ++ "\n📊 Status: " ++ t.status ++ "\n"

/-- `/start` handler. -/
def cmd_start (admin_ids : List String) (user_id : Int) : List Event :=
  if ¬ is_admin admin_ids user_id then [Event.replyText denialText]
  else
    [Event.replyText "👋 Welcome to Smite Panel Bot!\n\nUse /help to see available commands."]

/-- `/help` handler. -/
def cmd_help (admin_ids : List String) (user_id : Int) : List Event :=
  if ¬ is_admin admin_ids user_id then [Event.replyText denialText]
  else
    [Event.replyText "📋 Available Commands: ..."]

/-- `/nodes` handler: admin check, then one repository read, then reply. -/
def cmd_nodes (admin_ids : List String) (user_id : Int) (nodes : List NodeRec) :
    List Event :=
  if ¬ is_admin admin_ids user_id then [Event.replyText denialText]
  else
    Event.repoRead "Node" ::
      (if nodes.isEmpty then [Event.replyText "📭 No nodes found."]
       else [Event.replyText (renderNodes nodes)])

/-- `/tunnels` handler. -/
def cmd_tunnels (admin_ids : List String) (user_id : Int)
    (tunnels : List TunnelRec) : List Event :=
  if ¬ is_admin admin_ids user_id then [Event.replyText denialText]
  else
    Event.repoRead "Tunnel" ::
      (if tunnels.isEmpty then [Event.replyText "📭 No tunnels found."]
       else [Event.replyText (renderTunnels tunnels)])

/-- `/status` handler: admin check, two repository reads, reply. -/
def cmd_status (admin_ids : List String) (user_id : Int)
    (nodes : List NodeRec) (tunnels : List TunnelRec) : List Event :=
  if ¬ is_admin admin_ids user_id then [Event.replyText denialText]
  else
    [Event.repoRead "Node", Event.repoRead "Tunnel",
     Event.replyText (renderStatus nodes tunnels)]

/-- `/backup` handler (lines 319-341): admin check, progress reply, then
produce; on a produced artifact, send it and remove the file — but a
raised delivery is caught by the handler, which replies with the error
text, so the removal line is skipped. -/
def cmd_backup (admin_ids : List String) (user_id : Int)
    (createResult : Option String) (sendFails : Bool) : List Event :=
  if ¬ is_admin admin_ids user_id then [Event.replyText denialText]
  else
    [Event.replyText "📦 Creating backup...", Event.producerCall] ++
      match createResult with
      | some path =>
        if sendFails then [Event.logError "backup", Event.replyText "❌ Error creating backup"]
        else [Event.replyDocument, Event.removeFile path]
      | none => [Event.replyText "❌ Failed to create backup"]

/-- `show_node_info`: repository lookup by id, then edit the message. -/
def show_node_info (node_id : String) (nodes : List NodeRec) : List Event :=
  Event.repoRead "Node" ::
    (match nodes.find? (fun n => n.id = node_id) with
     | none => [Event.editMessage "❌ Node not found."]
     | some n => [Event.editMessage (renderNodeInfo n)])

/-- `show_tunnel_info`: repository lookup by id, then edit the message. -/
def show_tunnel_info (tunnel_id : String) (tunnels : List TunnelRec) : List Event :=
  Event.repoRead "Tunnel" ::
    (match tunnels.find? (fun t => t.id = tunnel_id) with
     | none => [Event.editMessage "❌ Tunnel not found."]
     | some t => [Event.editMessage (renderTunnelInfo t)])

/-- Nodes listing reached through a callback button. -/
def cmd_nodes_callback (nodes : List NodeRec) : List Event :=
  Event.repoRead "Node" ::
    (if nodes.isEmpty then [Event.editMessage "📭 No nodes found."]
     else [Event.editMessage (renderNodes nodes)])

/-- Tunnels listing reached through a callback button. -/
def cmd_tunnels_callback (tunnels : List TunnelRec) : List Event :=
  Event.repoRead "Tunnel" ::
    (if tunnels.isEmpty then [Event.editMessage "📭 No tunnels found."]
     else [Event.editMessage (renderTunnels tunnels)])

/-- Backup reached through a callback button (lines 559-578): like
`cmd_backup` but editing the original message; a raised delivery is
caught and the message edited to the error text, skipping removal. -/
def cmd_backup_callback (createResult : Option String) (sendFails : Bool) :
    List Event :=
  [Event.editMessage "📦 Creating backup...", Event.producerCall] ++
    match createResult with
    | some path =>
      if sendFails then [Event.logError "backup", Event.editMessage "❌ Error creating backup"]
      else [Event.replyDocument, Event.removeFile path,
            Event.editMessage "✅ Backup created and sent successfully!"]
    | none => [Event.editMessage "❌ Failed to create backup"]

/-- Status summary reached through a callback button. -/
def cmd_status_callback (nodes : List NodeRec) (tunnels : List TunnelRec) :
    List Event :=
  [Event.repoRead "Node", Event.repoRead "Tunnel",
   Event.editMessage (renderStatus nodes tunnels)]

/-- `handle_callback` (lines 420-444): answer the callback query, check
the admin list, then route on the callback data string. -/
def handle_callback (admin_ids : List String) (user_id : Int) (data : String)
    (nodes : List NodeRec) (tunnels : List TunnelRec)
    (createResult : Option String) (sendFails : Bool) : List Event :=
  Event.answerCallback ::
    (if ¬ is_admin admin_ids user_id then [Event.editMessage denialText]
     else if data.startsWith "node_info_" then
       show_node_info (data.replace "node_info_" "") nodes
     else if data.startsWith "tunnel_info_" then
       show_tunnel_info (data.replace "tunnel_info_" "") tunnels
     else if data = "cmd_nodes" then cmd_nodes_callback nodes
     else if data = "cmd_tunnels" then cmd_tunnels_callback tunnels
     else if data = "cmd_backup" then cmd_backup_callback createResult sendFails
     else if data = "cmd_status" then cmd_status_callback nodes tunnels
     else [])

/-- Events that touch the repository or the backup producer. -/
def isRepoOrProducer : Event → Bool
  | Event.repoRead _ => true
  | Event.producerCall => true
  | _ => false

/-! ## Session lifecycle (`start`/`stop`/`start_backup_task`/
`stop_backup_task`, lines 63-139)

The mutable `self` fields become a `SessionState`.  Besides the handles
(`application`, `backup_task`) the state carries two ghost counters,
`transportsBound` and `tasksLive`, counting transport bindings created and
not yet torn down and scheduler tasks spawned and not yet cancelled and
awaited; they let the single-instance claims be stated as counter bounds
rather than facts about an option type. -/

/-- The lifecycle-relevant `self` fields of `TelegramBot`, plus ghost
instance counters. -/
structure SessionState where
  application : Bool
  updaterRunning : Bool
  backupTask : Bool
  settings : TgSettings
  transportsBound : Nat
  tasksLive : Nat
deriving Repr, DecidableEq

/-- Which transport-teardown calls inside `stop` raise. -/
structure StopEnv where
  updaterStopRaises : Bool
  appStopRaises : Bool
  shutdownRaises : Bool
deriving Repr, DecidableEq

/-- A teardown environment in which nothing raises. -/
def calmStop : StopEnv :=
  { updaterStopRaises := false, appStopRaises := false, shutdownRaises := false }

/-- Environment of one `start` call: transport availability, the two
settings fetches it performs (one in `start`, one in `start_backup_task`),
which binding step raises, and the teardown environments of the inner
`stop` calls. -/
structure StartEnv where
  telegramAvailable : Bool
  load1Raises : Bool
  row1 : Option TgSettings
  stopEnv : StopEnv
  buildRaises : Bool
  initRaises : Bool
  appStartRaises : Bool
  pollingRaises : Bool
  load2Raises : Bool
  row2 : Option TgSettings
  cleanupStopEnv : StopEnv
deriving Repr, DecidableEq

/-- Overwrite the mirrored settings fields, as `load_settings` does. -/
def applySettings (t : TgSettings) (s : SessionState) : SessionState :=
  { s with settings := t }

/-- `stop_backup_task` (lines 130-139): when a task handle is held, cancel
it, await it (the loop re-raises only `CancelledError`, which is
swallowed), and clear the handle. -/
def stop_backup_task (s : SessionState) : SessionState × List Event :=
  if s.backupTask then
    ({ s with backupTask := false, tasksLive := s.tasksLive - 1 },
     [Event.cancelTask, Event.awaitTask])
  else (s, [])

/-- The transport-teardown `try` body of `stop` (lines 110-116): stop the
updater when it is running, stop the application, shut it down; the first
raising call aborts the rest and is logged by the `except` branch. -/
def teardownSteps (env : StopEnv) (updRunning : Bool) : List Event :=
  let tail2 := if env.shutdownRaises then [Event.logError "stop"] else [Event.appShutdown]
  let tail1 := if env.appStopRaises then [Event.logError "stop"] else Event.appStop :: tail2
  if updRunning then
    if env.updaterStopRaises then [Event.logError "stop"] else Event.updaterStop :: tail1
  else tail1

/-- `stop` (lines 105-119): stop the backup task first, then, when an
application handle is held, run the teardown with its errors swallowed and
clear the handle in the `finally` branch regardless. -/
def stop (env : StopEnv) (s : SessionState) : SessionState × List Event :=
  let p := stop_backup_task s
  if p.1.application then
    ({ p.1 with application := false, updaterRunning := false,
                transportsBound := p.1.transportsBound - 1 },
     p.2 ++ teardownSteps env p.1.updaterRunning)
  else p

/-- The result of a `start` call: `ret = none` models the call itself
raising (the first settings fetch sits outside the `try`), otherwise the
returned boolean. -/
structure StartOut where
  ret : Option Bool
  state : SessionState
  trace : List Event
deriving Repr, DecidableEq

/-- `start_backup_task` (lines 121-128), inlined into `start` below:
stop any previous task, re-fetch settings, and spawn a task only when
backup is enabled and the admin list is non-empty.  Raising of its
settings fetch is handled by the caller. -/
def start_backup_task (row2 : Option TgSettings) (s : SessionState) :
    SessionState × List Event :=
  let p := stop_backup_task s
  let s1 := applySettings (load_settings row2) p.1
  if s1.settings.backup_enabled ∧ ¬ s1.settings.admin_ids.isEmpty then
    ({ s1 with backupTask := true, tasksLive := s1.tasksLive + 1 },
     p.2 ++ [Event.loadSettings, Event.spawnTask])
  else (s1, p.2 ++ [Event.loadSettings])

/-- `start` (lines 63-103): bail out when the SDK is unavailable; fetch
settings (outside the `try`: a raise here escapes `start`); return false
when disabled or the token is falsy; force `stop`; then bind handlers,
start the application and polling, and start the backup task, cleaning up
with a full `stop` and returning false when any step of the `try` raises. -/
def start (env : StartEnv) (s : SessionState) : StartOut :=
  if ¬ env.telegramAvailable then
    { ret := some false, state := s, trace := [Event.logError "start"] }
  else if env.load1Raises then
    { ret := none, state := s, trace := [] }
  else
    let s1 := applySettings (load_settings env.row1) s
    if ¬ s1.settings.enabled ∨ ¬ tokenTruthy s1.settings.bot_token then
      { ret := some false, state := s1, trace := [Event.loadSettings] }
    else
      let p := stop env.stopEnv s1
      let tr0 := Event.loadSettings :: p.2
      if env.buildRaises then
        let q := stop env.cleanupStopEnv p.1
        { ret := some false, state := q.1,
          trace := tr0 ++ [Event.logError "start"] ++ q.2 }
      else
        let s2 := { p.1 with application := true,
                             transportsBound := p.1.transportsBound + 1 }
        let tr1 := tr0 ++ [Event.bindTransport]
        if env.initRaises then
          let q := stop env.cleanupStopEnv s2
          { ret := some false, state := q.1,
            trace := tr1 ++ [Event.logError "start"] ++ q.2 }
        else
          let tr2 := tr1 ++ [Event.initTransport]
          if env.appStartRaises then
            let q := stop env.cleanupStopEnv s2
            { ret := some false, state := q.1,
              trace := tr2 ++ [Event.logError "start"] ++ q.2 }
          else
            let tr3 := tr2 ++ [Event.appStart]
            if env.pollingRaises then
              let q := stop env.cleanupStopEnv s2
              { ret := some false, state := q.1,
                trace := tr3 ++ [Event.logError "start"] ++ q.2 }
            else
              let s3 := { s2 with updaterRunning := true }
              let tr4 := tr3 ++ [Event.startPolling]
              if env.load2Raises then
                let p2 := stop_backup_task s3
                let q := stop env.cleanupStopEnv p2.1
                { ret := some false, state := q.1,
                  trace := tr4 ++ p2.2 ++ [Event.logError "start"] ++ q.2 }
              else
                let p3 := start_backup_task env.row2 s3
                { ret := some true, state := p3.1, trace := tr4 ++ p3.2 }

/-- The handle/counter consistency invariant: each ghost counter agrees
with its handle. -/
def Inv (s : SessionState) : Prop :=
  s.tasksLive = (if s.backupTask then 1 else 0) ∧
  s.transportsBound = (if s.application then 1 else 0)

/-- `occursBefore a b l`: some occurrence of `a` in `l` is followed,
strictly later, by an occurrence of `b`. -/
def occursBefore (a b : Event) : List Event → Bool
  | [] => false
  | x :: xs => if x = a then decide (b ∈ xs) else occursBefore a b xs

/-- `rmOnlyLast ops`: the staging-removal operation appears at most as the
final operation of the sequence. -/
def rmOnlyLast : List CbOp → Bool
  | [] => true
  | op :: rest =>
    if rest.isEmpty then true
    else if op = CbOp.rmStaging then false
    else rmOnlyLast rest

/-- Occurrence count of an event in a trace. -/
def countEvent (e : Event) : List Event → Nat
  | [] => 0
  | x :: xs => (if x = e then 1 else 0) + countEvent e xs

/-- A settings row with backups enabled every 2 hours for one admin. -/
def rowH : TgSettings :=
  { enabled := true
    bot_token := some "t"
    admin_ids := ["1"]
    backup_enabled := true
    backup_interval := 2
    backup_interval_unit := "hours" }

/-- A settings row with backups enabled every 30 minutes for one admin. -/
def rowM : TgSettings :=
  { enabled := true
    bot_token := some "t"
    admin_ids := ["1"]
    backup_enabled := true
    backup_interval := 30
    backup_interval_unit := "minutes" }

/-- The freshly constructed session: no application, no task. -/
def sZero : SessionState :=
  { application := false
    updaterRunning := false
    backupTask := false
    settings := default_settings
    transportsBound := 0
    tasksLive := 0 }

/-- A fully running session: bound transport, polling, live backup task. -/
def sLive : SessionState :=
  { application := true
    updaterRunning := true
    backupTask := true
    settings := rowH
    transportsBound := 1
    tasksLive := 1 }

/-- A `start` environment in which every external step succeeds and both
settings fetches return `rowH`. -/
def envOkStart : StartEnv :=
  { telegramAvailable := true
    load1Raises := false
    row1 := some rowH
    stopEnv := calmStop
    buildRaises := false
    initRaises := false
    appStartRaises := false
    pollingRaises := false
    load2Raises := false
    row2 := some rowH
    cleanupStopEnv := calmStop }

/-- A `start` environment whose settings fetch finds no row, so the bot is
disabled and the token absent. -/
def envDisabledStart : StartEnv :=
  { envOkStart with row1 := none }

/-! ## Theorems -/

/-- C9: the scheduler sleep duration is `backupInterval × 3600` seconds for
unit `hours` and `backupInterval × 60` seconds for unit `minutes`; in
particular interval 2 with hours gives 7200 s and interval 30 with minutes
gives 1800 s, and those durations are exactly what a scheduler-loop
iteration sleeps under the corresponding settings. -/
theorem interval_computation :
    (∀ i : Nat, sleep_seconds i "hours" = i * 3600) ∧
    (∀ i : Nat, sleep_seconds i "minutes" = i * 60) ∧
    sleep_seconds 2 "hours" = 7200 ∧
    sleep_seconds 30 "minutes" = 1800 ∧
    Event.sleep 7200 ∈ (cycle (okEnv (some rowH)) default_settings).2 ∧
    Event.sleep 1800 ∈ (cycle (okEnv (some rowM)) default_settings).2 := by
  refine ⟨fun i => ?_, fun i => ?_, by decide, by decide, by decide, by decide⟩
  · simp [sleep_seconds]
  · rw [sleep_seconds, if_neg (by decide)]

/-- C10: every interval-unit string other than `"hours"` is treated as
minutes — the computation multiplies by 60 and is total over arbitrary
unit strings. -/
theorem interval_unit_fallback_minutes (i : Nat) (u : String) (h : u ≠ "hours") :
    sleep_seconds i u = i * 60 := by
  rw [sleep_seconds, if_neg h]

theorem interval_unit_fallback_minutes_witness :
    "days" ≠ "hours" ∧ sleep_seconds 7 "days" = 420 :=
  ⟨by decide, interval_unit_fallback_minutes 7 "days" (by decide)⟩

/-- C6: every command handler and the callback entry point check
`is_admin` before any repository read or producer call; for an
unauthorized identity each replies only with the denial (the callback
entry additionally answers the callback query first), and none of those
denial traces contains a repository or producer event. -/
theorem handlers_guard_unauthorized (admin_ids : List String) (user_id : Int)
    (nodes : List NodeRec) (tunnels : List TunnelRec)
    (createResult : Option String) (sendFails : Bool) (data : String)
    (h : is_admin admin_ids user_id = false) :
    cmd_start admin_ids user_id = [Event.replyText denialText] ∧
    cmd_help admin_ids user_id = [Event.replyText denialText] ∧
    cmd_nodes admin_ids user_id nodes = [Event.replyText denialText] ∧
    cmd_tunnels admin_ids user_id tunnels = [Event.replyText denialText] ∧
    cmd_status admin_ids user_id nodes tunnels = [Event.replyText denialText] ∧
    cmd_backup admin_ids user_id createResult sendFails = [Event.replyText denialText] ∧
    handle_callback admin_ids user_id data nodes tunnels createResult sendFails =
      [Event.answerCallback, Event.editMessage denialText] ∧
    ([Event.replyText denialText, Event.answerCallback,
      Event.editMessage denialText].all fun e => ¬ isRepoOrProducer e) = true := by
  refine ⟨?_, ?_, ?_, ?_, ?_, ?_, ?_, by decide⟩ <;>
    simp [cmd_start, cmd_help, cmd_nodes, cmd_tunnels, cmd_status, cmd_backup,
      handle_callback, h]

theorem handlers_guard_unauthorized_witness :
    is_admin [] 5 = false ∧
    cmd_backup [] 5 (some "/tmp/b.zip") false = [Event.replyText denialText] :=
  ⟨by decide,
   (handlers_guard_unauthorized [] 5 [] [] (some "/tmp/b.zip") false "cmd_backup"
     (by decide)).2.2.2.2.2.1⟩

/-- C8: `start` under freshly fetched settings with `enabled` false or a
falsy token returns false, leaves every handle and instance counter of the
session untouched, and its trace contains no transport binding and no
scheduler-task spawn. -/
theorem start_disabled_no_side_effects (env : StartEnv) (s : SessionState)
    (hav : env.telegramAvailable = true) (hl : env.load1Raises = false)
    (hd : (load_settings env.row1).enabled = false ∨
          tokenTruthy (load_settings env.row1).bot_token = false) :
    (start env s).ret = some false ∧
    (start env s).state.application = s.application ∧
    (start env s).state.backupTask = s.backupTask ∧
    (start env s).state.transportsBound = s.transportsBound ∧
    (start env s).state.tasksLive = s.tasksLive ∧
    Event.bindTransport ∉ (start env s).trace ∧
    Event.spawnTask ∉ (start env s).trace := by
  have hstart : start env s =
      { ret := some false, state := applySettings (load_settings env.row1) s,
        trace := [Event.loadSettings] } := by
    rw [start, if_neg (by simp [hav]), if_neg (by simp [hl]), if_pos]
    rcases hd with hd | hd <;> simp [applySettings, hd]
  rw [hstart]
  simp [applySettings]

theorem start_disabled_no_side_effects_witness :
    (start envDisabledStart sZero).ret = some false ∧
    Event.spawnTask ∉ (start envDisabledStart sZero).trace :=
  ⟨(start_disabled_no_side_effects envDisabledStart sZero (by decide) (by decide)
      (Or.inl (by decide))).1,
   (start_disabled_no_side_effects envDisabledStart sZero (by decide) (by decide)
      (Or.inl (by decide))).2.2.2.2.2.2⟩

/-- C1 counterexample: an iteration whose settings re-fetch raises — with
no cancellation signal anywhere — ends the loop (through the outer
exception handler) instead of proceeding to the next iteration. -/
theorem backup_loop_load_failure_terminates :
    loadFailEnv.cancelPoint = none ∧
    (backup_loop (fun _ => loadFailEnv) 2 default_settings).1 = LoopResult.errored := by
  exact ⟨rfl, rfl⟩

/-- C2 counterexample: a raise during zip writing aborts `create_backup`
with a `none` result while the staging directory (created at the start of
the same invocation) is still on the filesystem. -/
theorem create_backup_failure_leaves_staging :
    (create_backup fs0 (fun i => i == 2) ⟨false, false⟩).1 = none ∧
    (create_backup fs0 (fun i => i == 2) ⟨false, false⟩).2.stagingExists = true := by
  exact ⟨rfl, rfl⟩

/-- C3 counterexample: in the on-demand `/backup` path, when the document
delivery raises, the handler jumps to its error reply and the produced
artifact file is never deleted. -/
theorem cmd_backup_send_failure_skips_delete :
    is_admin ["7"] 7 = true ∧
    Event.removeFile "/tmp/smite_backup_ts.zip" ∉
      cmd_backup ["7"] 7 (some "/tmp/smite_backup_ts.zip") true := by
  exact ⟨by decide, by decide⟩

/-- Helper: an iteration with a successful settings re-fetch and no
cancellation signal always reaches the top of the loop again, whatever the
producer, dispatch and removal outcomes. -/
theorem cycle_continues_of_ok (env : CycleEnv) (st : TgSettings)
    (h1 : env.loadRaises = false) (h2 : env.cancelPoint = none) :
    (cycle env st).1.isContinues = true := by
  cases hcr : env.createResult <;> cases heas : env.enabledAfterSleep <;>
    cases hab : env.appBot <;>
    simp [cycle, h1, h2, hcr, heas, hab, CycleStep.isContinues]
  all_goals try split_ifs
  all_goals simp [CycleStep.isContinues]

/-- Helper: an iteration can end the loop through the outer exception
handler only when its settings re-fetch raised. -/
theorem cycle_errored_of_load (env : CycleEnv) (st : TgSettings)
    (h : (cycle env st).1 = CycleStep.errored) : env.loadRaises = true := by
  by_cases hl : env.loadRaises = true
  · exact hl
  · exfalso
    have hl1 : env.loadRaises = false := by simpa using hl
    rcases hcp : env.cancelPoint with _ | cp
    · have := cycle_continues_of_ok env st hl1 hcp
      rw [h] at this
      simp [CycleStep.isContinues] at this
    · cases cp <;> cases hcr : env.createResult <;>
        cases heas : env.enabledAfterSleep <;> cases hab : env.appBot <;>
        simp [cycle, hl1, hcp, hcr, heas, hab] at h
      all_goals split_ifs at h

/-- C1 (amended): failures inside a cycle are survived only for backup
production and dispatch — a cycle whose settings re-fetch succeeds
continues to the next iteration regardless of producer, delivery or
removal failures, and for any number of cycles the loop keeps running when
no re-fetch raises and no cancellation arrives; but an iteration ends the
loop through the outer handler exactly when its settings re-fetch raised,
so cancellation is not the only terminator. -/
theorem backup_loop_survives_cycle_failures :
    (∀ (env : CycleEnv) (st : TgSettings), env.loadRaises = false →
      env.cancelPoint = none → (cycle env st).1.isContinues = true) ∧
    (∀ (env : CycleEnv) (st : TgSettings),
      (cycle env st).1 = CycleStep.errored → env.loadRaises = true) ∧
    (∀ (envs : Nat → CycleEnv) (fuel : Nat) (st : TgSettings),
      (∀ i, (envs i).loadRaises = false) → (∀ i, (envs i).cancelPoint = none) →
      (backup_loop envs fuel st).1.stillLooping = true) := by
  refine ⟨cycle_continues_of_ok, cycle_errored_of_load, ?_⟩
  intro envs fuel
  induction fuel generalizing envs with
  | zero => intro st _ _; rfl
  | succ n ih =>
    intro st hL hC
    have hcont := cycle_continues_of_ok (envs 0) st (hL 0) (hC 0)
    rw [backup_loop]
    rcases hcyc : cycle (envs 0) st with ⟨step, tr⟩
    rcases step with st1 | _ | _
    · exact ih (fun i => envs (i + 1)) st1 (fun i => hL (i + 1)) (fun i => hC (i + 1))
    · rw [hcyc] at hcont; simp [CycleStep.isContinues] at hcont
    · rw [hcyc] at hcont; simp [CycleStep.isContinues] at hcont

theorem backup_loop_survives_cycle_failures_witness :
    (backup_loop (fun _ => okEnv (some rowH)) 3 default_settings).1.stillLooping = true :=
  backup_loop_survives_cycle_failures.2.2 (fun _ => okEnv (some rowH)) 3 default_settings
    (fun _ => rfl) (fun _ => rfl)

/-- Helper: the producer is invoked during an iteration only when the
settings loaded by that iteration have backup enabled. -/
theorem producer_in_cycle (env : CycleEnv) (st : TgSettings)
    (h : Event.producerCall ∈ (cycle env st).2) :
    (load_settings env.row).backup_enabled = true := by
  by_cases he : (load_settings env.row).backup_enabled = true
  · exact he
  · exfalso
    have he1 : (load_settings env.row).backup_enabled = false := by simpa using he
    rcases hcp : env.cancelPoint with _ | cp
    · cases hlr : env.loadRaises <;>
        simp [cycle, hcp, hlr, he1] at h
    · cases cp <;> cases hlr : env.loadRaises <;>
        simp [cycle, hcp, hlr, he1] at h

/-- C7: a scheduler iteration whose freshly fetched settings have backup
disabled or an empty admin list performs no backup production and sleeps
the fixed 60-second fallback; and across any number of iterations, while
every fetched settings row has backup disabled, no producer call ever
occurs in the loop trace. -/
theorem scheduler_disabled_no_backup :
    (∀ (env : CycleEnv) (st : TgSettings), env.loadRaises = false →
      env.cancelPoint = none →
      ((load_settings env.row).backup_enabled = false ∨
        (load_settings env.row).admin_ids.isEmpty = true) →
      cycle env st =
        (CycleStep.continues (load_settings env.row),
         [Event.loadSettings, Event.sleep 60])) ∧
    (∀ (envs : Nat → CycleEnv) (fuel : Nat) (st : TgSettings),
      (∀ i, (load_settings (envs i).row).backup_enabled = false) →
      Event.producerCall ∉ (backup_loop envs fuel st).2) := by
  constructor
  · intro env st h1 h2 hd
    have hcond : ¬ (load_settings env.row).backup_enabled = true ∨
        (load_settings env.row).admin_ids.isEmpty = true := by
      rcases hd with hd | hd
      · left; simp [hd]
      · right; exact hd
    rw [cycle]
    rw [if_neg (by simp [h2]), if_neg (by simp [h1]), if_pos hcond,
      if_neg (by simp [h2])]
  · intro envs fuel
    induction fuel generalizing envs with
    | zero => intro st _ h; simp [backup_loop] at h
    | succ n ih =>
      intro st hdis h
      rw [backup_loop] at h
      rcases hcyc : cycle (envs 0) st with ⟨step, tr⟩
      have hnp : Event.producerCall ∉ tr := by
        intro hmem
        have := producer_in_cycle (envs 0) st (by rw [hcyc]; exact hmem)
        rw [hdis 0] at this
        exact Bool.false_ne_true this
      rw [hcyc] at h
      rcases step with st1 | _ | _
      · rcases List.mem_append.mp h with h | h
        · exact hnp h
        · exact ih (fun i => envs (i + 1)) st1 (fun i => hdis (i + 1)) h
      · exact hnp h
      · exact hnp h

theorem scheduler_disabled_no_backup_witness :
    Event.producerCall ∉
      (backup_loop (fun _ => okEnv (some default_settings)) 4 rowH).2 :=
  scheduler_disabled_no_backup.2 (fun _ => okEnv (some default_settings)) 4 rowH
    (fun _ => rfl)

/-- Helper: every operation except the staging removal keeps an existing
staging directory in place. -/
theorem applyOp_staging (st : FsState) (op : CbOp) (hop : op ≠ CbOp.rmStaging)
    (h : st.stagingExists = true) : (applyOp st op).stagingExists = true := by
  cases op <;> simp_all [applyOp]

/-- Helper: a run with no raising operation applies every operation in
order. -/
theorem runOps_ok_foldl (ops : List CbOp) : ∀ (failAt : Nat → Bool) (i : Nat)
    (st st1 : FsState), runOps ops failAt i st = Except.ok st1 →
    st1 = ops.foldl applyOp st := by
  induction ops with
  | nil =>
    intro failAt i st st1 h
    simp only [runOps, Except.ok.injEq] at h
    rw [← h]
    rfl
  | cons op rest ih =>
    intro failAt i st st1 h
    rw [runOps] at h
    split at h
    · simp at h
    · rw [List.foldl_cons]
      exact ih failAt (i + 1) (applyOp st op) st1 h

/-- Helper: when the staging removal can only be the final operation, an
aborted run that started with the staging directory present ends with it
still present. -/
theorem runOps_error_staging (ops : List CbOp) : ∀ (failAt : Nat → Bool) (i : Nat)
    (st stf : FsState), rmOnlyLast ops = true → st.stagingExists = true →
    runOps ops failAt i st = Except.error stf → stf.stagingExists = true := by
  induction ops with
  | nil =>
    intro failAt i st stf _ _ h
    simp [runOps] at h
  | cons op rest ih =>
    intro failAt i st stf hrm hst h
    rw [runOps] at h
    split at h
    · injection h with h
      rw [← h]
      exact hst
    · cases rest with
      | nil => simp [runOps] at h
      | cons b l =>
        rw [rmOnlyLast, if_neg (by simp)] at hrm
        by_cases hop : op = CbOp.rmStaging
        · rw [if_pos hop] at hrm
          exact absurd hrm (by simp)
        · rw [if_neg hop] at hrm
          exact ih failAt (i + 1) (applyOp st op) stf hrm
            (applyOp_staging st op hop hst) h

/-- Helper: appending the zip and removal tail to removal-free staging
operations yields a sequence whose removal is only final. -/
theorem rmOnlyLast_append_tail (l : List CbOp) (h : CbOp.rmStaging ∉ l) :
    rmOnlyLast (l ++ [CbOp.openZip, CbOp.writeZip, CbOp.rmStaging]) = true := by
  induction l with
  | nil => decide
  | cons a as ih =>
    rw [List.cons_append, rmOnlyLast, if_neg (by simp),
      if_neg (by intro hEq; rw [hEq] at h; simp at h)]
    exact ih (fun hm => h (List.mem_cons_of_mem a hm))

/-- Helper: membership in a conditional operation block. -/
theorem mem_optOps {x : CbOp} {b : Bool} {l : List CbOp} (h : x ∈ optOps b l) :
    x ∈ l := by
  unfold optOps at h
  split at h
  · exact h
  · exact absurd h (List.not_mem_nil x)

/-- Helper: the staging-copy operations never remove the staging
directory. -/
theorem rm_not_mem_stageCopyOps (fs : BackupFS) :
    CbOp.rmStaging ∉ stageCopyOps fs := by
  intro h
  simp only [stageCopyOps, List.mem_append] at h
  rcases h with ((((((((h | h) | h) | h) | h) | h) | h) | h) | h) <;>
    · have := mem_optOps h
      simp at this

/-- Helper: a completed `create_backup` run ends with the staging
directory removed (the removal is the final operation applied). -/
theorem foldl_backupOps_staging (fs : BackupFS) (st : FsState) :
    ((backupOps fs).foldl applyOp st).stagingExists = false := by
  rw [backupOps, List.foldl_cons, List.foldl_append]
  simp [List.foldl_cons, List.foldl_nil, applyOp]

/-- C2 (amended): after a successful `create_backup` invocation no staging
directory remains; but on an I/O failure the function returns the failure
result (`none`) without cleanup, so whenever the failure struck after the
staging directory was created, the staging directory is still on the
filesystem when `create_backup` returns. -/
theorem create_backup_staging_lifecycle (fs : BackupFS) (failAt : Nat → Bool)
    (st : FsState) :
    ((create_backup fs failAt st).1.isSome = true →
      (create_backup fs failAt st).2.stagingExists = false) ∧
    ((create_backup fs failAt st).1 = none → failAt 0 = false →
      (create_backup fs failAt st).2.stagingExists = true) := by
  constructor
  · intro hsome
    rw [create_backup] at hsome ⊢
    rcases hrun : runOps (backupOps fs) failAt 0 st with stf | st1
    · rw [hrun] at hsome
      simp at hsome
    · show st1.stagingExists = false
      rw [runOps_ok_foldl (backupOps fs) failAt 0 st st1 hrun]
      exact foldl_backupOps_staging fs st
  · intro hnone h0
    rw [create_backup] at hnone ⊢
    rcases hrun : runOps (backupOps fs) failAt 0 st with stf | st1
    · show stf.stagingExists = true
      rw [backupOps, runOps, if_neg (by simp [h0])] at hrun
      exact runOps_error_staging _ failAt 1 (applyOp st CbOp.mkStaging) stf
        (rmOnlyLast_append_tail _ (rm_not_mem_stageCopyOps fs)) rfl hrun
    · rw [hrun] at hnone
      simp at hnone

theorem create_backup_staging_lifecycle_witness :
    (create_backup fs0 (fun _ => false) ⟨false, false⟩).2.stagingExists = false ∧
    (create_backup fs0 (fun i => i == 2) ⟨false, false⟩).2.stagingExists = true :=
  ⟨(create_backup_staging_lifecycle fs0 (fun _ => false) ⟨false, false⟩).1 (by decide),
   (create_backup_staging_lifecycle fs0 (fun i => i == 2) ⟨false, false⟩).2
     (by decide) (by decide)⟩

/-- Helper: event counting distributes over trace concatenation. -/
theorem countEvent_append (e : Event) (l1 l2 : List Event) :
    countEvent e (l1 ++ l2) = countEvent e l1 + countEvent e l2 := by
  induction l1 with
  | nil => simp [countEvent]
  | cons x xs ih =>
    rw [List.cons_append, countEvent, countEvent, ih, Nat.add_assoc]

/-- Helper: a trace without the event has count zero. -/
theorem countEvent_eq_zero (e : Event) (l : List Event) (h : ∀ x ∈ l, x ≠ e) :
    countEvent e l = 0 := by
  induction l with
  | nil => rfl
  | cons x xs ih =>
    rw [countEvent, if_neg (h x (List.mem_cons_self x xs)),
      ih (fun y hy => h y (List.mem_cons_of_mem x hy))]

/-- Helper: the per-recipient part of the scheduler dispatch emits only
document sends and send-failure logs. -/
theorem mem_dispatch_sends {admins : List String} {sendFails : String → Bool}
    {e : Event} (h : e ∈ admins.flatMap fun a =>
      match parseAdminId a with
      | none => [Event.logError "send"]
      | some i => if sendFails a then [Event.logError "send"]
                  else [Event.sendDocument i]) :
    (∃ i, e = Event.sendDocument i) ∨ e = Event.logError "send" := by
  rcases List.mem_flatMap.mp h with ⟨a, _, hmem⟩
  rcases hp : parseAdminId a with _ | i
  · rw [hp] at hmem
    simp at hmem
    right
    exact hmem
  · rw [hp] at hmem
    by_cases hf : sendFails a = true <;> simp [hf] at hmem
    · right
      exact hmem
    · left
      exact ⟨i, hmem⟩

/-- C3 (amended): in the scheduler path the dispatch is per-recipient
isolated — every admin whose id parses and whose delivery does not fail
receives the document, whatever happens to the other recipients — and the
artifact is removed exactly once afterwards; in the on-demand command path
the artifact is removed exactly once when the delivery succeeds, but a
delivery failure diverts to the error reply and the artifact is not
removed at all. -/
theorem dispatch_isolated_and_cleanup :
    (∀ (admins : List String) (sendFails : String → Bool) (path : String),
      countEvent (Event.removeFile path)
        (dispatchBackup admins sendFails path false) = 1) ∧
    (∀ (admins : List String) (sendFails : String → Bool) (path : String)
      (a : String) (i : Int), a ∈ admins → parseAdminId a = some i →
      sendFails a = false →
      Event.sendDocument i ∈ dispatchBackup admins sendFails path false) ∧
    (dispatchBackup ["1", "2", "3"] (fun a => a == "2") "/tmp/b.zip" false =
      [Event.sendDocument 1, Event.logError "send", Event.sendDocument 3,
       Event.removeFile "/tmp/b.zip"]) ∧
    (∀ (ids : List String) (uid : Int) (path : String), is_admin ids uid = true →
      countEvent (Event.removeFile path) (cmd_backup ids uid (some path) false) = 1) ∧
    (∀ (ids : List String) (uid : Int) (path : String), is_admin ids uid = true →
      Event.removeFile path ∉ cmd_backup ids uid (some path) true) := by
  refine ⟨?_, ?_, by decide, ?_, ?_⟩
  · intro admins sendFails path
    rw [dispatchBackup, if_neg (by simp), countEvent_append]
    rw [countEvent_eq_zero _ _ (fun x hx => ?_)]
    · simp [countEvent]
    · rcases mem_dispatch_sends hx with ⟨i, hi⟩ | hi <;> simp [hi]
  · intro admins sendFails path a i ha hp hf
    rw [dispatchBackup]
    refine List.mem_append_left _ (List.mem_flatMap.mpr ⟨a, ha, ?_⟩)
    rw [hp]
    simp [hf]
  · intro ids uid path h
    simp [cmd_backup, h, countEvent]
  · intro ids uid path h
    simp [cmd_backup, h]

theorem dispatch_isolated_and_cleanup_witness :
    countEvent (Event.removeFile "/tmp/b.zip")
      (cmd_backup ["7"] 7 (some "/tmp/b.zip") false) = 1 ∧
    Event.removeFile "/tmp/b.zip" ∉ cmd_backup ["7"] 7 (some "/tmp/b.zip") true :=
  ⟨dispatch_isolated_and_cleanup.2.2.2.1 ["7"] 7 "/tmp/b.zip" (by decide),
   dispatch_isolated_and_cleanup.2.2.2.2 ["7"] 7 "/tmp/b.zip" (by decide)⟩

/-- C4: `stop` clears the scheduler task and the transport handle in every
environment (including raising teardowns, whose errors are swallowed and
logged); it is idempotent — a second `stop` is a no-op on the state and
performs no actions; it cancels and awaits the backup task before any
transport-teardown action; and when nothing raises it unbinds the
transport in reverse binding order: stop polling, stop the application,
shut it down. -/
theorem stop_teardown_contract :
    (∀ (env : StopEnv) (s : SessionState),
      (stop env s).1.application = false ∧ (stop env s).1.backupTask = false) ∧
    (∀ (env1 env2 : StopEnv) (s : SessionState),
      stop env2 (stop env1 s).1 = ((stop env1 s).1, [])) ∧
    (∀ (env : StopEnv) (s : SessionState), s.backupTask = true →
      (stop env s).2.take 2 = [Event.cancelTask, Event.awaitTask]) ∧
    (∀ (env : StopEnv) (s : SessionState), s.application = true →
      s.updaterRunning = true → env = calmStop →
      (stop env s).2 =
        (if s.backupTask then [Event.cancelTask, Event.awaitTask] else []) ++
        [Event.updaterStop, Event.appStop, Event.appShutdown]) ∧
    (∀ (env : StopEnv) (s : SessionState), s.application = true →
      env.updaterStopRaises = false → env.appStopRaises = true →
      Event.logError "stop" ∈ (stop env s).2 ∧
      (stop env s).1.application = false) := by
  refine ⟨?_, ?_, ?_, ?_, ?_⟩
  · intro env s
    cases hb : s.backupTask <;> cases ha : s.application <;>
      simp [stop, stop_backup_task, hb, ha]
  · intro env1 env2 s
    cases hb : s.backupTask <;> cases ha : s.application <;>
      simp [stop, stop_backup_task, hb, ha]
  · intro env s hb
    cases ha : s.application <;> simp [stop, stop_backup_task, hb, ha]
  · intro env s ha hu henv
    subst henv
    cases hb : s.backupTask <;>
      simp [stop, stop_backup_task, teardownSteps, calmStop, ha, hu, hb]
  · intro env s ha h1 h2
    cases hb : s.backupTask <;> cases hu : s.updaterRunning <;>
      simp [stop, stop_backup_task, teardownSteps, ha, h1, h2, hb, hu]

theorem stop_teardown_contract_witness :
    sLive.application = true ∧ sLive.updaterRunning = true ∧
    (stop calmStop sLive).2 =
      (if sLive.backupTask then [Event.cancelTask, Event.awaitTask] else []) ++
      [Event.updaterStop, Event.appStop, Event.appShutdown] :=
  ⟨rfl, rfl, stop_teardown_contract.2.2.2.1 calmStop sLive rfl rfl rfl⟩

/-- Helper: `stop_backup_task` always leaves the task handle cleared. -/
theorem stop_backup_task_clears (s : SessionState) :
    (stop_backup_task s).1.backupTask = false := by
  cases hb : s.backupTask <;> simp [stop_backup_task, hb]

/-- Helper: `stop_backup_task` does not touch the transport handle. -/
theorem stop_backup_task_app (s : SessionState) :
    (stop_backup_task s).1.application = s.application := by
  cases hb : s.backupTask <;> simp [stop_backup_task, hb]

/-- Helper: `stop` always leaves the transport handle cleared. -/
theorem stop_clears_app (env : StopEnv) (s : SessionState) :
    (stop env s).1.application = false := by
  rw [stop]
  by_cases ha : (stop_backup_task s).1.application = true
  · rw [if_pos ha]
  · rw [if_neg ha]
    simpa using ha

/-- Helper: settings assignment preserves the handle/counter invariant. -/
theorem inv_applySettings (t : TgSettings) (s : SessionState) (h : Inv s) :
    Inv (applySettings t s) := by
  simpa [Inv, applySettings] using h

/-- Helper: `stop_backup_task` preserves the handle/counter invariant. -/
theorem inv_stop_backup_task (s : SessionState) (h : Inv s) :
    Inv (stop_backup_task s).1 := by
  rcases h with ⟨h1, h2⟩
  cases hb : s.backupTask
  · simpa [stop_backup_task, hb] using ⟨h1, h2⟩
  · rw [hb] at h1
    simp at h1
    exact ⟨by simp [Inv, stop_backup_task, hb, h1], by simp [Inv, stop_backup_task, hb, h2]⟩

/-- Helper: `stop` preserves the handle/counter invariant. -/
theorem inv_stop (env : StopEnv) (s : SessionState) (h : Inv s) :
    Inv (stop env s).1 := by
  have h1 := inv_stop_backup_task s h
  simp only [stop]
  by_cases ha : (stop_backup_task s).1.application = true
  · rw [if_pos ha]
    rcases h1 with ⟨ht, hb⟩
    rw [ha] at hb
    simp at hb
    exact ⟨by simpa using ht, by simp [hb]⟩
  · rw [if_neg ha]
    exact h1

/-- Helper: binding a transport on a state without one preserves the
invariant. -/
theorem inv_bind (s : SessionState) (h : Inv s) (ha : s.application = false) :
    Inv { s with application := true,
                 transportsBound := s.transportsBound + 1 } := by
  rcases h with ⟨h1, h2⟩
  rw [ha] at h2
  simp at h2
  exact ⟨by simpa using h1, by simp [h2]⟩

/-- Helper: marking the updater running preserves the invariant. -/
theorem inv_updater (s : SessionState) (h : Inv s) :
    Inv { s with updaterRunning := true } := by
  simpa [Inv] using h

/-- Helper: `start_backup_task` preserves the handle/counter invariant. -/
theorem inv_start_backup_task (row2 : Option TgSettings) (s : SessionState)
    (h : Inv s) : Inv (start_backup_task row2 s).1 := by
  have h1 := inv_stop_backup_task s h
  have hcl := stop_backup_task_clears s
  rcases h1 with ⟨ht, hb⟩
  rw [hcl] at ht
  simp at ht
  simp only [start_backup_task]
  split_ifs
  · exact ⟨by simp [applySettings, ht, hcl], by simp [applySettings, hb]⟩
  · exact ⟨by simp [applySettings, ht, hcl], by simp [applySettings, hb]⟩

/-- Helper: `start_backup_task` does not touch the transport handle. -/
theorem start_backup_task_app (row2 : Option TgSettings) (s : SessionState) :
    (start_backup_task row2 s).1.application = s.application := by
  simp only [start_backup_task]
  split_ifs <;> simp [applySettings, stop_backup_task_app]

/-- Helper: `start` preserves the handle/counter invariant in every
environment. -/
theorem start_preserves_inv (env : StartEnv) (s : SessionState) (h : Inv s) :
    Inv (start env s).state := by
  simp only [start]
  split_ifs <;>
    first
      | exact h
      | exact inv_applySettings _ _ h
      | exact inv_stop _ _ (inv_stop _ _ (inv_applySettings _ _ h))
      | exact inv_stop _ _ (inv_bind _ (inv_stop _ _ (inv_applySettings _ _ h))
          (stop_clears_app _ _))
      | exact inv_stop _ _ (inv_stop_backup_task _ (inv_updater _
          (inv_bind _ (inv_stop _ _ (inv_applySettings _ _ h))
            (stop_clears_app _ _))))
      | exact inv_start_backup_task _ _ (inv_updater _
          (inv_bind _ (inv_stop _ _ (inv_applySettings _ _ h))
            (stop_clears_app _ _)))

/-- Helper: a `start` that returns true has bound the transport. -/
theorem start_ret_true_app (env : StartEnv) (s : SessionState)
    (h : (start env s).ret = some true) : (start env s).state.application = true := by
  simp only [start] at h ⊢
  split_ifs at h ⊢ <;>
    first
      | (simp [start_backup_task_app]; done)
      | (exfalso; simp at h)

/-- Helper: when the session held a task, the trace of `stop` contains the
await of that task. -/
theorem await_in_stop_trace (env : StopEnv) (s : SessionState)
    (hb : s.backupTask = true) : Event.awaitTask ∈ (stop env s).2 := by
  cases ha : s.application <;> simp [stop, stop_backup_task, hb, ha]

/-- Helper: `occursBefore` over a split trace. -/
theorem occursBefore_append (a b : Event) (l1 l2 : List Event)
    (ha : a ∈ l1) (hb : b ∈ l2) : occursBefore a b (l1 ++ l2) = true := by
  induction l1 with
  | nil => exact absurd ha (List.not_mem_nil a)
  | cons x xs ih =>
    rw [List.cons_append, occursBefore]
    by_cases hx : x = a
    · rw [if_pos hx]
      exact decide_eq_true (List.mem_append_right xs hb)
    · rw [if_neg hx]
      rcases List.mem_cons.mp ha with hxa | hxa
      · exact absurd hxa.symm hx
      · exact ih hxa

/-- Helper: `occursBefore` skips a leading event that is not the first
element sought. -/
theorem occursBefore_cons_ne (a b x : Event) (l : List Event) (hx : x ≠ a) :
    occursBefore a b (x :: l) = occursBefore a b l := by
  rw [occursBefore, if_neg hx]

/-- C5: `start` preserves the one-instance invariant of the session in
every environment, so two consecutive `start` calls leave at most one
bound transport and at most one live scheduler task — exactly one bound
transport whenever the second call returns true; and a `start` on a
session holding a scheduler task awaits that task (full stop of the prior
session) before binding the new transport. -/
theorem start_twice_single_session :
    (∀ (env : StartEnv) (s : SessionState), Inv s → Inv (start env s).state) ∧
    (∀ (env1 env2 : StartEnv) (s : SessionState), Inv s →
      (start env2 (start env1 s).state).state.transportsBound ≤ 1 ∧
      (start env2 (start env1 s).state).state.tasksLive ≤ 1) ∧
    (∀ (env : StartEnv) (s : SessionState), Inv s →
      (start env s).ret = some true →
      (start env s).state.transportsBound = 1) ∧
    (∀ (env : StartEnv) (s : SessionState),
      s.backupTask = true → env.telegramAvailable = true →
      env.load1Raises = false → (load_settings env.row1).enabled = true →
      tokenTruthy (load_settings env.row1).bot_token = true →
      env.buildRaises = false →
      occursBefore Event.awaitTask Event.bindTransport (start env s).trace = true) := by
  refine ⟨start_preserves_inv, ?_, ?_, ?_⟩
  · intro env1 env2 s hInv
    rcases start_preserves_inv env2 _ (start_preserves_inv env1 s hInv) with ⟨ht, hb⟩
    constructor
    · rw [hb]
      split <;> simp
    · rw [ht]
      split <;> simp
  · intro env s hInv hret
    have happ := start_ret_true_app env s hret
    rcases start_preserves_inv env s hInv with ⟨_, hb⟩
    rw [hb, happ]
    rfl
  · intro env s hb hav hl he ht hbuild
    simp only [start]
    rw [if_neg (by simp [hav]), if_neg (by simp [hl]),
      if_neg (by simp [applySettings, he, ht]), if_neg (by simp [hbuild])]
    have hmem : Event.awaitTask ∈
        (stop env.stopEnv (applySettings (load_settings env.row1) s)).2 :=
      await_in_stop_trace _ _ (by simp [applySettings, hb])
    split_ifs <;>
      (simp only [List.append_assoc, List.cons_append, List.nil_append]
       rw [occursBefore_cons_ne _ _ _ _ (by decide)]
       exact occursBefore_append _ _ _ _ hmem (by simp))

theorem start_twice_single_session_witness :
    ((start envOkStart (start envOkStart sZero).state).state.transportsBound ≤ 1 ∧
     (start envOkStart (start envOkStart sZero).state).state.tasksLive ≤ 1) ∧
    occursBefore Event.awaitTask Event.bindTransport (start envOkStart sLive).trace = true :=
  ⟨start_twice_single_session.2.1 envOkStart envOkStart sZero ⟨rfl, rfl⟩,
   start_twice_single_session.2.2.2 envOkStart sLive rfl rfl rfl rfl (by decide) rfl⟩

end Smite
